import Mathlib

/-!
Shallow embedding of the nano_banana_bot repository (a Telegram bot with a
per-user token ledger, a conversation state machine, and a parallel image
generation orchestrator), together with theorems settling the spec claims.

The embedding follows the python sources:
  * `src/database/db.py`            — ledger store (users, conversation log, user states)
  * `src/handlers/create_photo.py`  — photo creation flow, media groups, orchestrator
  * `src/handlers/analyze_ctr.py`   — CTR analysis flow
  * `src/handlers/improve_ctr.py`   — CTR improvement flow
  * `src/handlers/prompt_classifier.py` — intent classifier
  * `src/bot.py`                    — message / photo routing

External effects (telegram transport, generative AI endpoints) are modelled by
oracle arguments: each network call's outcome is a value of an `Except`/`Option`
type supplied to the embedded handler, so the embedding is a pure function of
the database state and the oracles.
-/

namespace NanoBanana

/-! ### Data model (src/database/db.py) -/

/-- A row of the `users` table. -/
structure UserRow where
  username : Option String
  firstName : Option String
  balance : Int
  image_count : Nat
  hasSeenImageCountPrompt : Bool
deriving DecidableEq

/-- The `state_data` JSON payload of a `user_states` row; only the keys the
handlers actually read are modelled (`images`, `image_file_id`,
`recommendations`). -/
structure StateData where
  pendingImages : List Nat
  imageFileId : Option String
  recommendations : String
deriving DecidableEq

/-- A row of the `user_states` table. -/
structure UserState where
  feature : String
  state : String
  data : StateData
deriving DecidableEq

/-- A row of the append-only `conversations` log table. -/
structure LogEntry where
  userId : Nat
  feature : String
  messageType : String
  imageCount : Nat
  tokensUsed : Nat
  success : Bool
deriving DecidableEq

/-- The whole database: the three relations of `db.py`, keyed by telegram user id. -/
structure DB where
  users : Nat → Option UserRow
  states : Nat → Option UserState
  log : List LogEntry

/-- `TOKEN_COSTS` dictionary of `db.py` (partial map from feature to cost). -/
def TOKEN_COSTS : String → Option Nat := fun feature =>
  if feature = "create_photo" then some 25
  else if feature = "analyze_ctr" then some 10
  else none

/-- `DEFAULT_BALANCE` of `db.py`. -/
def DEFAULT_BALANCE : Nat := 50

/-- `get_user`: look up a user row. -/
def get_user (db : DB) (uid : Nat) : Option UserRow := db.users uid

/-- `update_user_balance`: add `amount` to the user's balance (SQL `UPDATE`
matching at most the one row with this id), returning the new database and the
freshly selected balance (`0` when the user does not exist). -/
def update_user_balance (db : DB) (uid : Nat) (amount : Int) : DB × Int :=
  let db' : DB :=
    { db with
      users := fun i =>
        if i = uid then (db.users i).map (fun u => { u with balance := u.balance + amount })
        else db.users i }
  (db', match db'.users uid with
        | some u => u.balance
        | none => 0)

/-- `check_balance`: `user["balance"] >= required`, `False` for a missing user. -/
def check_balance (db : DB) (uid : Nat) (required : Nat) : Bool :=
  match get_user db uid with
  | none => false
  | some u => decide ((required : Int) ≤ u.balance)

/-- `deduct_balance`: look the feature up in `TOKEN_COSTS` (defaulting to `0`)
and subtract the cost via `update_user_balance`. -/
def deduct_balance (db : DB) (uid : Nat) (feature : String) : DB × Int :=
  let cost := (TOKEN_COSTS feature).getD 0
  update_user_balance db uid (-(cost : Int))

/-- `get_user_image_count`: the user's preferred image count, `1` for a missing user. -/
def get_user_image_count (db : DB) (uid : Nat) : Nat :=
  match get_user db uid with
  | none => 1
  | some u => u.image_count

/-- `set_user_image_count`: raises `ValueError` unless `count in (1, 2, 4)`,
otherwise updates only the `image_count` column of the user's row. -/
def set_user_image_count (db : DB) (uid : Nat) (count : Nat) : Except String DB :=
  if count = 1 ∨ count = 2 ∨ count = 4 then
    .ok { db with
          users := fun i =>
            if i = uid then (db.users i).map (fun u => { u with image_count := count })
            else db.users i }
  else
    .error "Image count must be 1, 2, or 4"

/-- `log_conversation`: append a row to the `conversations` table. -/
def log_conversation (db : DB) (uid : Nat) (feature messageType : String)
    (imageCount tokensUsed : Nat) (success : Bool) : DB :=
  { db with log := db.log ++ [⟨uid, feature, messageType, imageCount, tokensUsed, success⟩] }

/-- `get_user_state`. -/
def get_user_state (db : DB) (uid : Nat) : Option UserState := db.states uid

/-- `set_user_state`: upsert the single state row of this user. -/
def set_user_state (db : DB) (uid : Nat) (feature state : String) (data : StateData) : DB :=
  { db with
    states := fun i => if i = uid then some ⟨feature, state, data⟩ else db.states i }

/-- `clear_user_state`: delete the state row of this user. -/
def clear_user_state (db : DB) (uid : Nat) : DB :=
  { db with states := fun i => if i = uid then none else db.states i }

/-! ### Basic lemmas about the store operations -/

@[simp] theorem log_conversation_users (db : DB) (uid : Nat) (f mt : String)
    (ic tu : Nat) (s : Bool) : (log_conversation db uid f mt ic tu s).users = db.users := rfl

@[simp] theorem log_conversation_states (db : DB) (uid : Nat) (f mt : String)
    (ic tu : Nat) (s : Bool) : (log_conversation db uid f mt ic tu s).states = db.states := rfl

@[simp] theorem clear_user_state_users (db : DB) (uid : Nat) :
    (clear_user_state db uid).users = db.users := rfl

theorem clear_user_state_states_self (db : DB) (uid : Nat) :
    (clear_user_state db uid).states uid = none := by
  simp [clear_user_state]

@[simp] theorem update_user_balance_states (db : DB) (uid : Nat) (a : Int) :
    (update_user_balance db uid a).1.states = db.states := rfl

@[simp] theorem deduct_balance_states (db : DB) (uid : Nat) (f : String) :
    (deduct_balance db uid f).1.states = db.states := rfl

theorem update_user_balance_users_self (db : DB) (uid : Nat) (a : Int) (u : UserRow)
    (hu : db.users uid = some u) :
    (update_user_balance db uid a).1.users uid = some { u with balance := u.balance + a } := by
  simp [update_user_balance, hu]

theorem check_balance_false (db : DB) (uid : Nat) (required : Nat) (u : UserRow)
    (hu : db.users uid = some u) (h : u.balance < (required : Int)) :
    check_balance db uid required = false := by
  simp [check_balance, get_user, hu]
  omega

/-! ### Bot messages

Each constructor stands for one of the `send_message` / `send_photo` /
`send_media_group` calls of the handlers, carrying exactly the dynamic data the
source interpolates into that message. -/

/-- The user-visible messages the handlers produce (transport payloads abstracted
to the data interpolated into them by the source). -/
inductive BotMessage where
  /-- create_photo paths: "Недостаточно токенов! Требуется: {total_cost} ({image_count} вариантов)" -/
  | insufficientTokensCount (required imageCount : Nat)
  /-- analyze_ctr: "Недостаточно токенов! Требуется: {TOKEN_COSTS[analyze_ctr]}" -/
  | insufficientTokensAnalyze (required : Nat)
  /-- improve_ctr: "Требуется: {cost} токенов / Ваш баланс: {balance} токенов" -/
  | insufficientTokensImprove (required : Nat) (available : Int)
  /-- single uncaptioned photo: "Пожалуйста, отправьте изображение с текстовым описанием" -/
  | captionRequiredSingle
  /-- uncaptioned album: "Пожалуйста, добавьте описание к вашим изображениям" -/
  | captionRequiredAlbum
  /-- oversized single image warning -/
  | imageTooLarge (sizeBytes : Nat)
  /-- download failure in the single-image path ("Ошибка при загрузке изображения") -/
  | downloadError
  /-- generated previews and originals delivered (photo + document, or two media groups) -/
  | imagesDelivered (count : Nat)
  /-- "Не удалось сгенерировать изображения." -/
  | generationFailed
  /-- analyze_ctr text reminder: "отправьте фото карточки товара, а не текст" -/
  | ctrReminder
  /-- analysis result text delivered (possibly chunked by the transport) -/
  | ctrResult (text : String)
  /-- "Не удалось проанализировать изображение." -/
  | ctrAnalysisFailed
  /-- analyze_ctr generic error report -/
  | ctrError (e : String)
  /-- improve_ctr: "Улучшаем карточку товара" -/
  | improvingCard
  /-- improve_ctr: "Данные анализа не найдены." -/
  | analysisDataMissing
  /-- improve_ctr: "Изображение не найдено." -/
  | storedImageMissing
  /-- improve_ctr generic error report -/
  | improveError (e : String)
  /-- default router reply: "Используйте /start для открытия меню." -/
  | menuHint
deriving DecidableEq

/-- Result of one feature handler invocation: the database afterwards, the
messages sent, and the `True`/`False` "was this event consumed" return value. -/
structure HandlerOut where
  db : DB
  msgs : List BotMessage
  handled : Bool

/-- Python truthiness of an optional caption string (`None` and `""` are falsy). -/
def strTruthy : Option String → Bool
  | none => false
  | some s => !s.isEmpty

/-! ### Intent classifier (src/handlers/prompt_classifier.py)

`laozhang_generate_text` is modelled by the oracle `net`:
`.error e` for a raised exception, `.ok none` for a `None` reply,
`.ok (some s)` for reply text `s`.  PIL images are opaque (`Nat`). -/

/-- Result dictionary of `analyze_user_intent`. -/
structure IntentResult where
  wants_ctr_improvement : Bool
  raw_ctr_response : String
deriving DecidableEq

/-- `analyze_user_intent` of `prompt_classifier.py`; the second component counts
the auxiliary-model network calls issued. -/
def analyze_user_intent (prompt : String) (images : List Nat)
    (net : Except String (Option String)) : IntentResult × Nat :=
  if images.isEmpty then
    (⟨false, "skipped: no images"⟩, 0)
  else
    let _ctr_prompt :=
      "Analyze the following user request ... User request: \"" ++ prompt
        ++ "\" ... Answer with ONLY \"yes\" or \"no\". ... Answer:"
    match net with
    | .error e => (⟨false, "error: " ++ e⟩, 1)
    | .ok none => (⟨false, "error: no response"⟩, 1)
    | .ok (some ans) =>
      let a := ans.trim.toLower
      (⟨a.startsWith "yes", a⟩, 1)

/-! ### Generation orchestrator (src/handlers/create_photo.py) -/

/-- `MAX_IMAGES` of create_photo.py. -/
def MAX_IMAGES : Nat := 5

/-- `MAX_IMAGE_SIZE_MB` of create_photo.py. -/
def MAX_IMAGE_SIZE_MB : Nat := 7

/-- Stands for the fixed `CTR_ENHANCEMENT_PROMPT` instruction text of
create_photo.py (the literal Russian marketing text is abbreviated; only its
presence matters to the control flow). -/
def CTR_ENHANCEMENT_PROMPT : String := " [CTR enhancement instructions]"

/-- `_generate_single_image`: one parallel generation call.  The oracle `gen`
gives `laozhang_generate_image`'s outcome per slot index: `.error` for a raised
exception, `.ok none` for a `None` return, `.ok (some d)` for image bytes `d`
(empty bytes are falsy in the source's `if image_data:` test). -/
def _generate_single_image (gen : Nat → Except String (Option (List Nat))) (i : Nat) :
    Nat × Option (List Nat) :=
  match gen i with
  | .ok (some d) => if d.isEmpty then (i, none) else (i, some d)
  | .ok none => (i, none)
  | .error _ => (i, none)

/-- The list `results = await asyncio.gather(*tasks)` (task order = slot order). -/
def generationResults (gen : Nat → Except String (Option (List Nat))) (n : Nat) :
    List (Nat × Option (List Nat)) :=
  (List.range n).map (_generate_single_image gen)

/-- Insertion step of `sorted(results)` (tuples compared by their first
component; slot indices are distinct). -/
def insertByIndex (p : Nat × Option (List Nat)) :
    List (Nat × Option (List Nat)) → List (Nat × Option (List Nat))
  | [] => [p]
  | q :: qs => if p.1 ≤ q.1 then p :: q :: qs else q :: insertByIndex p qs

/-- `sorted(results)` as insertion sort by slot index. -/
def sortResults : List (Nat × Option (List Nat)) → List (Nat × Option (List Nat))
  | [] => []
  | p :: ps => insertByIndex p (sortResults ps)

/-- `generated_images = [(idx, data) for idx, data in sorted(results) if data is not None]`. -/
def collectGenerated (gen : Nat → Except String (Option (List Nat))) (n : Nat) :
    List (Nat × List Nat) :=
  (sortResults (generationResults gen n)).filterMap (fun p => p.2.map (fun d => (p.1, d)))

/-- Result of `_process_image_generation`: the database afterwards, the images
delivered to the user (with their slot indices), and the summary messages. -/
structure GenOutcome where
  db : DB
  delivered : List (Nat × List Nat)
  msgs : List BotMessage

/-- `_process_image_generation` of create_photo.py: log the prompt, classify
intent (the enhanced prompt is passed to the generation calls, whose outcomes
the oracle `gen` models per slot), fan out `target_image_count` parallel calls,
keep the non-failing results in slot order, then either deliver them and charge
`25 * generated_count`, or report failure and charge nothing. -/
def _process_image_generation (db : DB) (uid : Nat) (prompt : String) (images : List Nat)
    (net : Except String (Option String)) (gen : Nat → Except String (Option (List Nat))) :
    GenOutcome :=
  let target := get_user_image_count db uid
  let db1 := log_conversation db uid "create_photo" "user_prompt" images.length 0 true
  let intent := (analyze_user_intent prompt images net).1
  let _enhanced := if intent.wants_ctr_improvement then prompt ++ CTR_ENHANCEMENT_PROMPT else prompt
  let generated := collectGenerated gen target
  let k := generated.length
  if 0 < k then
    let actualCost := (TOKEN_COSTS "create_photo").getD 0 * k
    let db2 := (update_user_balance db1 uid (-(actualCost : Int))).1
    let db3 := log_conversation db2 uid "create_photo" "bot_image_generated" k actualCost true
    ⟨db3, generated, [.imagesDelivered k]⟩
  else
    ⟨db1, [], [.generationFailed]⟩

/-! ### create_photo handlers (src/handlers/create_photo.py) -/

/-- `handle_photo_prompt`: consume a text message when the user is in
`create_photo / awaiting_photo_input`.  `pendingImages` models
`context.user_data.get("pending_images", [])`. -/
def handle_photo_prompt (db : DB) (uid : Nat) (text : String) (pendingImages : List Nat)
    (net : Except String (Option String)) (gen : Nat → Except String (Option (List Nat))) :
    HandlerOut :=
  match get_user_state db uid with
  | none => ⟨db, [], false⟩
  | some st =>
    if st.feature ≠ "create_photo" ∨ st.state ≠ "awaiting_photo_input" then
      ⟨db, [], false⟩
    else
      let imageCount := get_user_image_count db uid
      let totalCost := (TOKEN_COSTS "create_photo").getD 0 * imageCount
      if check_balance db uid totalCost = false then
        ⟨clear_user_state db uid, [.insufficientTokensCount totalCost imageCount], true⟩
      else
        let db1 := clear_user_state db uid
        let out := _process_image_generation db1 uid text pendingImages net gen
        ⟨out.db, out.msgs, true⟩

/-- The per-album collection dictionary `context.user_data[group_key]`. -/
structure MediaGroupData where
  images : List Nat
  caption : Option String
deriving DecidableEq

/-- An incoming photo message: its caption, its optional `media_group_id`, the
reported file size in bytes, whether the transport download succeeds, and the
opaque decoded image. -/
structure PhotoMsg where
  caption : Option String
  mediaGroupId : Option String
  fileSize : Nat
  downloadOk : Bool
  img : Nat
deriving DecidableEq

/-- `_collect_media_group_image` (its effect on the per-group store): skip
oversized photos and failed downloads, drop photos once `MAX_IMAGES` are
collected (issuing the truncation warning), otherwise append the image and keep
the first truthy caption.  Returns (new store, collected?, limit warning?). -/
def _collect_media_group_image (store : Option MediaGroupData) (m : PhotoMsg) :
    Option MediaGroupData × Bool × Bool :=
  if MAX_IMAGE_SIZE_MB * 1024 * 1024 < m.fileSize then (store, false, false)
  else if m.downloadOk = false then (store, false, false)
  else
    let g := store.getD ⟨[], none⟩
    if MAX_IMAGES ≤ g.images.length then (some g, false, true)
    else
      (some ⟨g.images ++ [m.img],
             if strTruthy m.caption ∧ strTruthy g.caption = false then m.caption
             else g.caption⟩,
       true, false)

/-- `_process_collected_media_group`: after the quiet period, reject a
caption-less album (clearing state), check the balance, then run the
orchestrator and clear state. -/
def _process_collected_media_group (db : DB) (uid : Nat) (store : Option MediaGroupData)
    (net : Except String (Option String)) (gen : Nat → Except String (Option (List Nat))) :
    DB × List BotMessage :=
  match store with
  | none => (db, [])
  | some g =>
    if g.images.isEmpty then (db, [])
    else if strTruthy g.caption = false then
      (clear_user_state db uid, [.captionRequiredAlbum])
    else
      let imageCount := get_user_image_count db uid
      let totalCost := (TOKEN_COSTS "create_photo").getD 0 * imageCount
      if check_balance db uid totalCost = false then
        (clear_user_state db uid, [.insufficientTokensCount totalCost imageCount])
      else
        let out := _process_image_generation db uid (g.caption.getD "") g.images net gen
        (clear_user_state out.db uid, out.msgs)

/-- `handle_create_photo_image`: consume a photo when the user is in
`create_photo / awaiting_photo_input`.  Album photos are collected for deferred
processing; a single photo needs a truthy caption, a sufficient balance, an
acceptable size and a successful download before the orchestrator runs. -/
def handle_create_photo_image (db : DB) (uid : Nat) (m : PhotoMsg)
    (store : Option MediaGroupData)
    (net : Except String (Option String)) (gen : Nat → Except String (Option (List Nat))) :
    HandlerOut × Option MediaGroupData :=
  match get_user_state db uid with
  | none => (⟨db, [], false⟩, store)
  | some st =>
    if st.feature ≠ "create_photo" ∨ st.state ≠ "awaiting_photo_input" then
      (⟨db, [], false⟩, store)
    else if m.mediaGroupId.isSome then
      (⟨db, [], true⟩, (_collect_media_group_image store m).1)
    else if strTruthy m.caption = false then
      (⟨db, [.captionRequiredSingle], true⟩, store)
    else
      let imageCount := get_user_image_count db uid
      let totalCost := (TOKEN_COSTS "create_photo").getD 0 * imageCount
      if check_balance db uid totalCost = false then
        (⟨clear_user_state db uid, [.insufficientTokensCount totalCost imageCount], true⟩, store)
      else if MAX_IMAGE_SIZE_MB * 1024 * 1024 < m.fileSize then
        (⟨db, [.imageTooLarge m.fileSize], true⟩, store)
      else if m.downloadOk = false then
        (⟨log_conversation db uid "create_photo" "error" 0 0 false, [.downloadError], true⟩, store)
      else
        let out := _process_image_generation db uid (m.caption.getD "") [m.img] net gen
        (⟨clear_user_state out.db uid, out.msgs, true⟩, store)

/-! ### analyze_ctr handlers (src/handlers/analyze_ctr.py)

The Gemini analysis call is modelled by `resp : Except String String`:
`.error e` for a raised exception (download or API), `.ok t` for a response
whose `.text` is `t` (empty `t` is the falsy "no text" case). -/

/-- `handle_ctr_text`: in `analyze_ctr / awaiting_ctr_image`, a text message is
answered with a reminder; the state row is not touched. -/
def handle_ctr_text (db : DB) (uid : Nat) : HandlerOut :=
  match get_user_state db uid with
  | none => ⟨db, [], false⟩
  | some st =>
    if st.feature ≠ "analyze_ctr" ∨ st.state ≠ "awaiting_ctr_image" then
      ⟨db, [], false⟩
    else
      ⟨db, [.ctrReminder], true⟩

/-- `handle_ctr_photo`: in `analyze_ctr / awaiting_ctr_image`, a photo either
hits the balance gate (message + state cleared) or clears the state and runs the
analysis, charging only on a non-empty response. -/
def handle_ctr_photo (db : DB) (uid : Nat) (resp : Except String String) : HandlerOut :=
  match get_user_state db uid with
  | none => ⟨db, [], false⟩
  | some st =>
    if st.feature ≠ "analyze_ctr" ∨ st.state ≠ "awaiting_ctr_image" then
      ⟨db, [], false⟩
    else
      let cost := (TOKEN_COSTS "analyze_ctr").getD 0
      if check_balance db uid cost = false then
        ⟨clear_user_state db uid, [.insufficientTokensAnalyze cost], true⟩
      else
        let db1 := clear_user_state db uid
        let db2 := log_conversation db1 uid "analyze_ctr" "user_image" 1 0 true
        match resp with
        | .error e =>
          ⟨log_conversation db2 uid "analyze_ctr" "error" 0 0 false, [.ctrError e], true⟩
        | .ok t =>
          if t.isEmpty then
            ⟨log_conversation db2 uid "analyze_ctr" "error" 0 0 false, [.ctrAnalysisFailed], true⟩
          else
            let db3 := (deduct_balance db2 uid "analyze_ctr").1
            let db4 := log_conversation db3 uid "analyze_ctr" "bot_response" 0 cost true
            ⟨db4, [.ctrResult t], true⟩

/-! ### improve_ctr handler (src/handlers/improve_ctr.py) -/

/-- `_build_improvement_prompt`: keep everything from the first "💡" on (or the
whole text when absent) and wrap it in the fixed instruction frame (the literal
Russian frame text is abbreviated). -/
def _build_improvement_prompt (recommendations : String) : String :=
  let sect :=
    match recommendations.splitOn "💡" with
    | [] => recommendations
    | [_] => recommendations
    | _ :: rest => "💡" ++ String.intercalate "💡" rest
  "[improvement prompt frame] " ++ sect ++ " [improvement prompt tail]"

/-- `start_ctr_improvement`: requires a `ctr_improvement` state carrying a
stored image reference; on an insufficient balance it reports the required cost
and the current balance and returns without clearing the state; otherwise it
clears state, announces the run, downloads the stored image (`download` oracle)
and hands over to the orchestrator. -/
def start_ctr_improvement (db : DB) (uid : Nat) (download : Except String Nat)
    (net : Except String (Option String)) (gen : Nat → Except String (Option (List Nat))) :
    DB × List BotMessage :=
  match get_user_state db uid with
  | none => (db, [.analysisDataMissing])
  | some st =>
    if st.feature ≠ "ctr_improvement" then (db, [.analysisDataMissing])
    else
      match st.data.imageFileId with
      | none => (clear_user_state db uid, [.storedImageMissing])
      | some _ =>
        let cost := (TOKEN_COSTS "create_photo").getD 0
        if check_balance db uid cost = false then
          let bal : Int :=
            match get_user db uid with
            | some u => u.balance
            | none => 0
          (db, [.insufficientTokensImprove cost bal])
        else
          let db1 := log_conversation db uid "improve_ctr" "button_click" 0 0 true
          let db2 := clear_user_state db1 uid
          match download with
          | .error e =>
            (log_conversation db2 uid "improve_ctr" "error" 0 0 false,
             [.improvingCard, .improveError e])
          | .ok img =>
            let prompt := _build_improvement_prompt st.data.recommendations
            let out := _process_image_generation db2 uid prompt [img] net gen
            (out.db, .improvingCard :: out.msgs)

/-! ### Message / photo routing (src/bot.py) -/

/-- `handle_message` of bot.py: offer the text to `handle_photo_prompt`, then
`handle_ctr_text`, else send the default menu hint. -/
def handle_message (db : DB) (uid : Nat) (text : String) (pendingImages : List Nat)
    (net : Except String (Option String)) (gen : Nat → Except String (Option (List Nat))) :
    DB × List BotMessage :=
  let r1 := handle_photo_prompt db uid text pendingImages net gen
  if r1.handled then (r1.db, r1.msgs)
  else
    let r2 := handle_ctr_text r1.db uid
    if r2.handled then (r2.db, r2.msgs)
    else (r2.db, [.menuHint])

/-- `handle_photo` of bot.py: offer the photo to `handle_create_photo_image`,
then `handle_ctr_photo`, else send the default menu hint. -/
def handle_photo (db : DB) (uid : Nat) (m : PhotoMsg) (store : Option MediaGroupData)
    (net : Except String (Option String)) (gen : Nat → Except String (Option (List Nat)))
    (resp : Except String String) :
    DB × List BotMessage × Option MediaGroupData :=
  let r1 := handle_create_photo_image db uid m store net gen
  if r1.1.handled then (r1.1.db, r1.1.msgs, r1.2)
  else
    let r2 := handle_ctr_photo r1.1.db uid resp
    if r2.handled then (r2.db, r2.msgs, r1.2)
    else (r2.db, [.menuHint], r1.2)

/-! ### Orchestrator lemmas -/

theorem fst_generate_single_image (gen : Nat → Except String (Option (List Nat))) (i : Nat) :
    (_generate_single_image gen i).1 = i := by
  unfold _generate_single_image
  cases gen i with
  | error e => rfl
  | ok o =>
    cases o with
    | none => rfl
    | some d => by_cases hd : d.isEmpty <;> simp [hd]

theorem insertByIndex_of_le (p : Nat × Option (List Nat)) (l : List (Nat × Option (List Nat)))
    (h : ∀ q ∈ l, p.1 ≤ q.1) : insertByIndex p l = p :: l := by
  cases l with
  | nil => rfl
  | cons q qs => simp [insertByIndex, h q (by simp)]

theorem sortResults_of_pairwise (l : List (Nat × Option (List Nat)))
    (h : l.Pairwise fun p q => p.1 ≤ q.1) : sortResults l = l := by
  induction l with
  | nil => rfl
  | cons p ps ih =>
    rw [sortResults, ih h.of_cons]
    exact insertByIndex_of_le p ps fun q hq => List.rel_of_pairwise_cons h hq

theorem generationResults_pairwise (gen : Nat → Except String (Option (List Nat))) (n : Nat) :
    (generationResults gen n).Pairwise fun p q => p.1 ≤ q.1 := by
  unfold generationResults
  refine (List.pairwise_le_range n).map (_generate_single_image gen) ?_
  intro a b hab
  rw [fst_generate_single_image, fst_generate_single_image]
  exact hab

/-- The collected successful results are exactly the non-failing slots, in
ascending slot order. -/
theorem collectGenerated_eq (gen : Nat → Except String (Option (List Nat))) (n : Nat) :
    collectGenerated gen n
      = (List.range n).filterMap fun i =>
          ((_generate_single_image gen i).2).map fun d => (i, d) := by
  unfold collectGenerated
  rw [sortResults_of_pairwise _ (generationResults_pairwise gen n)]
  unfold generationResults
  rw [List.filterMap_map]
  refine List.filterMap_congr fun i _ => ?_
  have hfst := fst_generate_single_image gen i
  simp [Function.comp, hfst]

theorem filterMap_pair_fst (l : List Nat) (h : Nat → Option (List Nat)) :
    (l.filterMap fun i => (h i).map fun d => (i, d)).map Prod.fst
      = l.filter fun i => (h i).isSome := by
  induction l with
  | nil => rfl
  | cons a l ih => cases hh : h a <;> simp [hh, ih]

/-- The orchestrator's delivered list is the collected successes in every branch. -/
theorem process_image_generation_delivered (db : DB) (uid : Nat) (prompt : String)
    (images : List Nat) (net : Except String (Option String))
    (gen : Nat → Except String (Option (List Nat))) :
    (_process_image_generation db uid prompt images net gen).delivered
      = collectGenerated gen (get_user_image_count db uid) := by
  unfold _process_image_generation
  by_cases hk : 0 < (collectGenerated gen (get_user_image_count db uid)).length
  · simp [hk]
  · simp only [hk, if_false]
    have : collectGenerated gen (get_user_image_count db uid) = [] :=
      List.eq_nil_of_length_eq_zero (by omega)
    simp [this]

/-! ### Shared concrete data for witnesses and counterexamples -/

/-- A freshly created user: default balance `50`, default image count `1`. -/
def sampleUser : UserRow := ⟨some "alice", some "Alice", 50, 1, false⟩

/-- Empty `state_data` payload. -/
def emptyData : StateData := ⟨[], none, ""⟩

/-- One user, no active conversation state. -/
def dbIdle : DB := ⟨fun i => if i = 1 then some sampleUser else none, fun _ => none, []⟩

/-- One user in `create_photo / awaiting_photo_input`. -/
def dbCreate : DB :=
  ⟨fun i => if i = 1 then some sampleUser else none,
   fun i => if i = 1 then some ⟨"create_photo", "awaiting_photo_input", emptyData⟩ else none,
   []⟩

/-- One user in `analyze_ctr / awaiting_ctr_image`. -/
def dbCtr : DB :=
  ⟨fun i => if i = 1 then some sampleUser else none,
   fun i => if i = 1 then some ⟨"analyze_ctr", "awaiting_ctr_image", emptyData⟩ else none,
   []⟩

/-! ### Claim C1 — charge for delivered output count only -/

/-- C1: for every existing user and generation run, when `k` of the requested
images are produced successfully the balance afterwards is the balance before
minus `TOKEN_COSTS["create_photo"] * k = 25 * k`; when `k = 0` no user row
changes at all and the failure message is the only output. -/
theorem charge_for_delivered (db : DB) (uid : Nat) (u : UserRow) (prompt : String)
    (images : List Nat) (net : Except String (Option String))
    (gen : Nat → Except String (Option (List Nat)))
    (hu : db.users uid = some u) :
    (_process_image_generation db uid prompt images net gen).db.users uid
      = some { u with balance := u.balance
          - 25 * ((_process_image_generation db uid prompt images net gen).delivered.length : Int) }
    ∧ ((_process_image_generation db uid prompt images net gen).delivered.length = 0 →
        (_process_image_generation db uid prompt images net gen).db.users = db.users
        ∧ (_process_image_generation db uid prompt images net gen).msgs
            = [.generationFailed]) := by
  have hdel := process_image_generation_delivered db uid prompt images net gen
  have husers : (_process_image_generation db uid prompt images net gen).db.users uid
      = some { u with balance := u.balance
          - 25 * ((collectGenerated gen (get_user_image_count db uid)).length : Int) } := by
    obtain ⟨un, fn, b, ic, hsp⟩ := u
    unfold _process_image_generation
    by_cases hk : 0 < (collectGenerated gen (get_user_image_count db uid)).length
    · simp only [hk, if_true]
      simp [update_user_balance, TOKEN_COSTS, hu]
      omega
    · have hnil : collectGenerated gen (get_user_image_count db uid) = [] :=
        List.eq_nil_of_length_eq_zero (by omega)
      simp [hnil, hu]
  constructor
  · rw [hdel]
    exact husers
  · intro h0
    rw [hdel] at h0
    have hnil : collectGenerated gen (get_user_image_count db uid) = [] :=
      List.eq_nil_of_length_eq_zero h0
    have hout : _process_image_generation db uid prompt images net gen
        = ⟨log_conversation db uid "create_photo" "user_prompt" images.length 0 true,
           [], [.generationFailed]⟩ := by
      unfold _process_image_generation
      simp [hnil]
    rw [hout]
    exact ⟨rfl, rfl⟩

/-- C1 witness: a run where every generation call fails leaves the user table
untouched and reports failure. -/
theorem charge_for_delivered_witness :
    (_process_image_generation dbCreate 1 "a cat" [] (.ok none) (fun _ => .ok none)).db.users
      = dbCreate.users
    ∧ (_process_image_generation dbCreate 1 "a cat" [] (.ok none) (fun _ => .ok none)).msgs
      = [.generationFailed] :=
  (charge_for_delivered dbCreate 1 sampleUser "a cat" [] (.ok none) (fun _ => .ok none) rfl).2 rfl

/-! ### Claim C2 — delivered images are exactly the non-failing calls, in slot order -/

/-- C2: for every requested count (the user's `image_count`) and every pattern
of per-slot failures, the orchestrator delivers exactly the non-failing calls'
images, tagged with and ordered by their original request slots. -/
theorem orchestrator_delivery (db : DB) (uid : Nat) (prompt : String) (images : List Nat)
    (net : Except String (Option String)) (gen : Nat → Except String (Option (List Nat))) :
    (_process_image_generation db uid prompt images net gen).delivered
      = (List.range (get_user_image_count db uid)).filterMap
          (fun i => ((_generate_single_image gen i).2).map fun d => (i, d))
    ∧ (_process_image_generation db uid prompt images net gen).delivered.map Prod.fst
      = (List.range (get_user_image_count db uid)).filter
          (fun i => ((_generate_single_image gen i).2).isSome)
    ∧ (_process_image_generation db uid prompt images net gen).delivered.length
      = ((List.range (get_user_image_count db uid)).filter
          (fun i => ((_generate_single_image gen i).2).isSome)).length := by
  have h1 : (_process_image_generation db uid prompt images net gen).delivered
      = (List.range (get_user_image_count db uid)).filterMap
          (fun i => ((_generate_single_image gen i).2).map fun d => (i, d)) := by
    rw [process_image_generation_delivered, collectGenerated_eq]
  have h2 := filterMap_pair_fst (List.range (get_user_image_count db uid))
    (fun i => (_generate_single_image gen i).2)
  refine ⟨h1, ?_, ?_⟩
  · rw [h1]; exact h2
  · rw [h1, ← h2, List.length_map]

/-! ### Claim C3 — insufficient-balance rejection -/

/-- Formalisation of the claim's phrase "a message citing both the required
amount and their available balance": the bot messages that interpolate the
user's available balance.  Written from the claim's words, to be compared with
the messages the source actually builds. -/
def spec_citesAvailableBalance : BotMessage → Bool
  | .insufficientTokensImprove _ _ => true
  | _ => false

/-- A user with balance 25 and image count 4 (cost 100) in
`create_photo / awaiting_photo_input` — the spec's own §8 scenario. -/
def dbPoor : DB :=
  ⟨fun i => if i = 1 then some ⟨some "bob", some "Bob", 25, 4, true⟩ else none,
   fun i => if i = 1 then some ⟨"create_photo", "awaiting_photo_input", emptyData⟩ else none,
   []⟩

/-- A user with balance 10 holding a `ctr_improvement` state with a stored image. -/
def dbPoorImprove : DB :=
  ⟨fun i => if i = 1 then some ⟨none, none, 10, 1, false⟩ else none,
   fun i => if i = 1 then some ⟨"ctr_improvement", "", ⟨[], some "file77", "рекомендации"⟩⟩ else none,
   []⟩

/-- C3 counterexample: at the spec's own required=100/available=25 scenario the
rejection message carries only the required amount and the image count — not the
available balance — so "a message citing both the required amount and their
available balance" fails; and in the ctr-improvement path (balance 10 < 25) the
state record is still present after the rejection, so "the user's conversation
state is cleared" fails as well. -/
theorem insufficient_balance_cex :
    (handle_photo_prompt dbPoor 1 "prompt" [] (.ok none) (fun _ => .error "x")).msgs
      = [.insufficientTokensCount 100 4]
    ∧ spec_citesAvailableBalance (.insufficientTokensCount 100 4) = false
    ∧ (start_ctr_improvement dbPoorImprove 1 (.ok 0) (.ok none) (fun _ => .error "x")).2
      = [.insufficientTokensImprove 25 10]
    ∧ (start_ctr_improvement dbPoorImprove 1 (.ok 0) (.ok none) (fun _ => .error "x")).1.states 1
      = some ⟨"ctr_improvement", "", ⟨[], some "file77", "рекомендации"⟩⟩ := by
  refine ⟨rfl, rfl, rfl, rfl⟩

/-- C3 (amended): an attempt with insufficient balance is always rejected with
no work done and no balance change, but the message contents and the state
handling differ by path: the `create_photo` text path reports the required
amount and image count (not the available balance) and clears the state; the
`analyze_ctr` photo path reports the required amount only and clears the state;
the `ctr_improvement` path reports both the required amount and the available
balance but retains the state. -/
theorem insufficient_balance_policy
    (dbA dbB dbC : DB) (uid : Nat) (ua ub uc : UserRow) (stA stB stC : UserState)
    (text : String) (pend : List Nat) (fid : String)
    (net : Except String (Option String)) (gen : Nat → Except String (Option (List Nat)))
    (resp : Except String String) (download : Except String Nat)
    (huA : dbA.users uid = some ua) (hsA : dbA.states uid = some stA)
    (hfA : stA.feature = "create_photo") (hpA : stA.state = "awaiting_photo_input")
    (hbA : ua.balance < 25 * (ua.image_count : Int))
    (huB : dbB.users uid = some ub) (hsB : dbB.states uid = some stB)
    (hfB : stB.feature = "analyze_ctr") (hpB : stB.state = "awaiting_ctr_image")
    (hbB : ub.balance < 10)
    (huC : dbC.users uid = some uc) (hsC : dbC.states uid = some stC)
    (hfC : stC.feature = "ctr_improvement") (hidC : stC.data.imageFileId = some fid)
    (hbC : uc.balance < 25) :
    handle_photo_prompt dbA uid text pend net gen
      = ⟨clear_user_state dbA uid,
         [.insufficientTokensCount (25 * ua.image_count) ua.image_count], true⟩
    ∧ handle_ctr_photo dbB uid resp
      = ⟨clear_user_state dbB uid, [.insufficientTokensAnalyze 10], true⟩
    ∧ start_ctr_improvement dbC uid download net gen
      = (dbC, [.insufficientTokensImprove 25 uc.balance]) := by
  refine ⟨?_, ?_, ?_⟩
  · have hcnt : get_user_image_count dbA uid = ua.image_count := by
      simp [get_user_image_count, get_user, huA]
    have hcb : check_balance dbA uid (25 * ua.image_count) = false := by
      refine check_balance_false dbA uid _ ua huA ?_
      push_cast
      omega
    simp [handle_photo_prompt, get_user_state, hsA, hfA, hpA, hcnt, hcb, TOKEN_COSTS]
  · have hcb : check_balance dbB uid 10 = false := by
      refine check_balance_false dbB uid _ ub huB ?_
      push_cast
      omega
    simp [handle_ctr_photo, get_user_state, hsB, hfB, hpB, hcb, TOKEN_COSTS]
  · have hcb : check_balance dbC uid 25 = false := by
      refine check_balance_false dbC uid _ uc huC ?_
      push_cast
      omega
    simp [start_ctr_improvement, get_user_state, get_user, hsC, hfC, hidC, hcb, huC, TOKEN_COSTS]

/-- A user with balance 3 in `analyze_ctr / awaiting_ctr_image`. -/
def dbPoorCtr : DB :=
  ⟨fun i => if i = 1 then some ⟨none, none, 3, 1, false⟩ else none,
   fun i => if i = 1 then some ⟨"analyze_ctr", "awaiting_ctr_image", emptyData⟩ else none,
   []⟩

/-- C3 witness for the amended theorem, at the three concrete databases of the
counterexample (plus a poor user for the analyze path). -/
theorem insufficient_balance_policy_witness :
    handle_photo_prompt dbPoor 1 "prompt" [] (.ok none) (fun _ => .error "x")
      = ⟨clear_user_state dbPoor 1, [.insufficientTokensCount 100 4], true⟩
    ∧ handle_ctr_photo dbPoorCtr 1 (.ok "t")
      = ⟨clear_user_state dbPoorCtr 1, [.insufficientTokensAnalyze 10], true⟩
    ∧ start_ctr_improvement dbPoorImprove 1 (.ok 0) (.ok none) (fun _ => .error "x")
      = (dbPoorImprove, [.insufficientTokensImprove 25 10]) :=
  insufficient_balance_policy dbPoor dbPoorCtr dbPoorImprove 1
    ⟨some "bob", some "Bob", 25, 4, true⟩ ⟨none, none, 3, 1, false⟩ ⟨none, none, 10, 1, false⟩
    ⟨"create_photo", "awaiting_photo_input", emptyData⟩
    ⟨"analyze_ctr", "awaiting_ctr_image", emptyData⟩
    ⟨"ctr_improvement", "", ⟨[], some "file77", "рекомендации"⟩⟩
    "prompt" [] "file77" (.ok none) (fun _ => .error "x") (.ok "t") (.ok 0)
    rfl rfl rfl rfl (by decide) rfl rfl rfl rfl (by decide) rfl rfl rfl rfl (by decide)

/-! ### Claim C4 — intent classifier -/

/-- C4: the classifier reports `wants_ctr_improvement = true` exactly when the
image list is non-empty and the auxiliary model's reply, stripped and
lower-cased, starts with "yes"; an error or missing reply yields `false`; and
an empty image list yields `false` with zero network calls issued. -/
theorem analyze_user_intent_spec (prompt : String) (images : List Nat)
    (net : Except String (Option String)) :
    ((analyze_user_intent prompt images net).1.wants_ctr_improvement
      = (!images.isEmpty &&
          match net with
          | .ok (some s) => s.trim.toLower.startsWith "yes"
          | .ok none => false
          | .error _ => false))
    ∧ (analyze_user_intent prompt [] net).2 = 0
    ∧ (analyze_user_intent prompt [] net).1.wants_ctr_improvement = false := by
  refine ⟨?_, rfl, rfl⟩
  cases images with
  | nil =>
    cases net with
    | error e => rfl
    | ok o => cases o <;> rfl
  | cons a l =>
    cases net with
    | error e => rfl
    | ok o => cases o <;> rfl

/-! ### Claim C5 — analyze_ctr state machine -/

/-- C5: with an `analyze_ctr / awaiting_ctr_image` state, a text message leaves
the whole database (hence the state record) untouched and sends the reminder,
while a photo — whatever the analysis outcome — leaves no state record. -/
theorem awaiting_ctr_image_transitions (db : DB) (uid : Nat) (st : UserState)
    (resp : Except String String)
    (hs : db.states uid = some st)
    (hf : st.feature = "analyze_ctr") (hstep : st.state = "awaiting_ctr_image") :
    handle_ctr_text db uid = ⟨db, [.ctrReminder], true⟩
    ∧ (handle_ctr_photo db uid resp).db.states uid = none
    ∧ (handle_ctr_photo db uid resp).handled = true := by
  refine ⟨?_, ?_, ?_⟩
  · simp [handle_ctr_text, get_user_state, hs, hf, hstep]
  · simp only [handle_ctr_photo, get_user_state, hs, hf, hstep]
    split
    · next hcontra => simp at hcontra
    · split
      · simp [clear_user_state]
      · cases resp with
        | error e => simp [clear_user_state]
        | ok t =>
          by_cases ht : t.isEmpty <;>
            simp [ht, clear_user_state, deduct_balance, update_user_balance]
  · simp only [handle_ctr_photo, get_user_state, hs, hf, hstep]
    split
    · next hcontra => simp at hcontra
    · split
      · rfl
      · cases resp with
        | error e => rfl
        | ok t => by_cases ht : t.isEmpty <;> simp [ht]

/-- C5 witness: a concrete user in `analyze_ctr / awaiting_ctr_image`. -/
theorem awaiting_ctr_image_transitions_witness :
    handle_ctr_text dbCtr 1 = ⟨dbCtr, [.ctrReminder], true⟩
    ∧ (handle_ctr_photo dbCtr 1 (.ok "analysis text")).db.states 1 = none
    ∧ (handle_ctr_photo dbCtr 1 (.ok "analysis text")).handled = true :=
  awaiting_ctr_image_transitions dbCtr 1
    ⟨"analyze_ctr", "awaiting_ctr_image", emptyData⟩ (.ok "analysis text") rfl rfl rfl

/-! ### Claim C6 — no active state falls through to the menu hint -/

/-- C6: with no state record, neither the text handlers nor the photo handlers
consume the event (each gating check returns `false`), and the router replies
with the default menu hint, leaving the database unchanged. -/
theorem no_state_menu_hint (db : DB) (uid : Nat) (text : String) (pend : List Nat)
    (net : Except String (Option String)) (gen : Nat → Except String (Option (List Nat)))
    (m : PhotoMsg) (store : Option MediaGroupData) (resp : Except String String)
    (h : db.states uid = none) :
    handle_message db uid text pend net gen = (db, [.menuHint])
    ∧ handle_photo db uid m store net gen resp = (db, [.menuHint], store)
    ∧ (handle_photo_prompt db uid text pend net gen).handled = false
    ∧ (handle_ctr_text db uid).handled = false
    ∧ (handle_create_photo_image db uid m store net gen).1.handled = false
    ∧ (handle_ctr_photo db uid resp).handled = false := by
  have h1 : handle_photo_prompt db uid text pend net gen = ⟨db, [], false⟩ := by
    simp [handle_photo_prompt, get_user_state, h]
  have h2 : handle_ctr_text db uid = ⟨db, [], false⟩ := by
    simp [handle_ctr_text, get_user_state, h]
  have h3 : handle_create_photo_image db uid m store net gen = (⟨db, [], false⟩, store) := by
    simp [handle_create_photo_image, get_user_state, h]
  have h4 : handle_ctr_photo db uid resp = ⟨db, [], false⟩ := by
    simp [handle_ctr_photo, get_user_state, h]
  refine ⟨?_, ?_, by rw [h1], by rw [h2], by rw [h3], by rw [h4]⟩
  · simp [handle_message, h1, h2]
  · simp [handle_photo, h3, h4]

/-- C6 witness: a user with no state sending a text and a captioned photo. -/
theorem no_state_menu_hint_witness :
    handle_message dbIdle 1 "hello" [] (.ok none) (fun _ => .ok none) = (dbIdle, [.menuHint])
    ∧ handle_photo dbIdle 1 ⟨some "nice cap", none, 1000, true, 7⟩ none
        (.ok none) (fun _ => .ok none) (.ok "t")
      = (dbIdle, [.menuHint], none) :=
  ⟨(no_state_menu_hint dbIdle 1 "hello" [] (.ok none) (fun _ => .ok none)
      ⟨some "nice cap", none, 1000, true, 7⟩ none (.ok "t") rfl).1,
   (no_state_menu_hint dbIdle 1 "hello" [] (.ok none) (fun _ => .ok none)
      ⟨some "nice cap", none, 1000, true, 7⟩ none (.ok "t") rfl).2.1⟩

/-! ### Claim C7 — uncaptioned photos -/

/-- C7 counterexample: a collected one-photo album without a caption is
rejected with the caption request, but — contrary to the claim — the user's
conversation state record is cleared, not retained: it is present before
processing and gone afterwards. -/
theorem uncaptioned_album_cex :
    dbCreate.states 1 = some ⟨"create_photo", "awaiting_photo_input", emptyData⟩
    ∧ (_process_collected_media_group dbCreate 1 (some ⟨[7], none⟩) (.ok none)
        (fun _ => .ok none)).2 = [.captionRequiredAlbum]
    ∧ (_process_collected_media_group dbCreate 1 (some ⟨[7], none⟩) (.ok none)
        (fun _ => .ok none)).1.states 1 = none :=
  ⟨rfl, rfl, rfl⟩

/-- C7 (amended): in `create_photo / awaiting_photo_input`, a single uncaptioned
photo is rejected with a caption re-prompt and the state (indeed the whole
database) is retained; an uncaptioned album is rejected with a caption request
after collection and the state is cleared. -/
theorem uncaptioned_photo_policy (db : DB) (uid : Nat) (st : UserState) (m : PhotoMsg)
    (store : Option MediaGroupData) (g : MediaGroupData)
    (net : Except String (Option String)) (gen : Nat → Except String (Option (List Nat)))
    (hs : db.states uid = some st) (hf : st.feature = "create_photo")
    (hstep : st.state = "awaiting_photo_input")
    (hm : m.mediaGroupId = none) (hc : strTruthy m.caption = false)
    (hg : strTruthy g.caption = false) (hne : g.images.isEmpty = false) :
    handle_create_photo_image db uid m store net gen
      = (⟨db, [.captionRequiredSingle], true⟩, store)
    ∧ _process_collected_media_group db uid (some g) net gen
      = (clear_user_state db uid, [.captionRequiredAlbum]) := by
  constructor
  · simp [handle_create_photo_image, get_user_state, hs, hf, hstep, hm, hc]
  · simp [_process_collected_media_group, hg, hne]

/-- C7 witness for the amended theorem at a concrete user, photo and album. -/
theorem uncaptioned_photo_policy_witness :
    handle_create_photo_image dbCreate 1 ⟨none, none, 1000, true, 7⟩ none
        (.ok none) (fun _ => .ok none)
      = (⟨dbCreate, [.captionRequiredSingle], true⟩, none)
    ∧ _process_collected_media_group dbCreate 1 (some ⟨[7], none⟩) (.ok none)
        (fun _ => .ok none)
      = (clear_user_state dbCreate 1, [.captionRequiredAlbum]) :=
  uncaptioned_photo_policy dbCreate 1 ⟨"create_photo", "awaiting_photo_input", emptyData⟩
    ⟨none, none, 1000, true, 7⟩ none ⟨[7], none⟩ (.ok none) (fun _ => .ok none)
    rfl rfl rfl rfl rfl rfl rfl

/-! ### Claim C8 — album truncation at MAX_IMAGES -/

/-- An album photo that passes the size check and downloads successfully. -/
def photoOk (m : PhotoMsg) : Bool :=
  decide (m.fileSize ≤ MAX_IMAGE_SIZE_MB * 1024 * 1024) && m.downloadOk

/-- Number of images currently collected for a media group. -/
def storeLen : Option MediaGroupData → Nat
  | none => 0
  | some g => g.images.length

/-- Fold `_collect_media_group_image` over an incoming photo sequence, counting
the truncation warnings issued. -/
def collectAll : Option MediaGroupData → List PhotoMsg → Option MediaGroupData × Nat
  | store, [] => (store, 0)
  | store, m :: ms =>
    let r := _collect_media_group_image store m
    let rest := collectAll r.1 ms
    (rest.1, (if r.2.2 then 1 else 0) + rest.2)

theorem collectAll_storeLen :
    ∀ (ms : List PhotoMsg) (store : Option MediaGroupData),
      (∀ m ∈ ms, photoOk m = true) → storeLen store ≤ MAX_IMAGES →
      storeLen (collectAll store ms).1 = min (storeLen store + ms.length) MAX_IMAGES
      ∧ (collectAll store ms).2 = storeLen store + ms.length - MAX_IMAGES := by
  intro ms
  induction ms with
  | nil =>
    intro store _ hle
    constructor
    · simp [collectAll]
      omega
    · simp [collectAll]
      unfold MAX_IMAGES at hle ⊢
      omega
  | cons m ms ih =>
    intro store hok hle
    have hm : photoOk m = true := hok m (by simp)
    have hms : ∀ x ∈ ms, photoOk x = true := fun x hx => hok x (by simp [hx])
    have hsize : ¬ MAX_IMAGE_SIZE_MB * 1024 * 1024 < m.fileSize := by
      simp [photoOk] at hm
      omega
    have hdl : ¬ m.downloadOk = false := by
      simp [photoOk] at hm
      simp [hm.2]
    have hgetD : (store.getD ⟨[], none⟩).images.length = storeLen store := by
      cases store <;> rfl
    by_cases hfull : MAX_IMAGES ≤ storeLen store
    · have hstep : _collect_media_group_image store m
          = (some (store.getD ⟨[], none⟩), false, true) := by
        unfold _collect_media_group_image
        rw [if_neg hsize, if_neg hdl, if_pos (by rw [hgetD]; exact hfull)]
      have hlen' : storeLen (some (store.getD ⟨[], none⟩)) = storeLen store := hgetD
      obtain ⟨ih1, ih2⟩ := ih (some (store.getD ⟨[], none⟩)) hms (by rw [hlen']; exact hle)
      simp only [collectAll, hstep]
      rw [hlen'] at ih1 ih2
      constructor
      · rw [ih1]
        simp
        omega
      · rw [ih2]
        simp
        unfold MAX_IMAGES at hfull hle ⊢
        omega
    · have hstep : _collect_media_group_image store m
          = (some ⟨(store.getD ⟨[], none⟩).images ++ [m.img],
                   if strTruthy m.caption = true ∧ strTruthy (store.getD ⟨[], none⟩).caption = false
                   then m.caption else (store.getD ⟨[], none⟩).caption⟩,
             true, false) := by
        unfold _collect_media_group_image
        rw [if_neg hsize, if_neg hdl, if_neg (by rw [hgetD]; exact hfull)]
      have hlen' : storeLen (some ⟨(store.getD ⟨[], none⟩).images ++ [m.img],
          if strTruthy m.caption = true ∧ strTruthy (store.getD ⟨[], none⟩).caption = false
          then m.caption else (store.getD ⟨[], none⟩).caption⟩) = storeLen store + 1 := by
        simp [storeLen, hgetD]
      obtain ⟨ih1, ih2⟩ := ih _ hms (by rw [hlen']; unfold MAX_IMAGES at hfull ⊢; omega)
      simp only [collectAll, hstep]
      rw [hlen'] at ih1 ih2
      constructor
      · rw [ih1]
        simp
        omega
      · rw [ih2]
        simp
        omega

/-- C8: starting from an empty collection, a run of acceptable album photos
yields at most `MAX_IMAGES = 5` collected images (exactly `min n 5` of them),
with one truncation warning for each photo beyond the fifth; and once a group
holds `MAX_IMAGES` images, any further acceptable photo is dropped unchanged
with a warning. -/
theorem album_truncation (ms : List PhotoMsg) (hok : ∀ m ∈ ms, photoOk m = true) :
    storeLen (collectAll none ms).1 = min ms.length MAX_IMAGES
    ∧ (collectAll none ms).2 = ms.length - MAX_IMAGES
    ∧ ∀ (g : MediaGroupData) (m' : PhotoMsg), photoOk m' = true →
        MAX_IMAGES ≤ g.images.length →
        _collect_media_group_image (some g) m' = (some g, false, true) := by
  obtain ⟨h1, h2⟩ := collectAll_storeLen ms none hok (by simp [storeLen])
  refine ⟨by simpa [storeLen] using h1, by simpa [storeLen] using h2, ?_⟩
  intro g m' hok' hfull
  have hsize : ¬ MAX_IMAGE_SIZE_MB * 1024 * 1024 < m'.fileSize := by
    simp [photoOk] at hok'
    omega
  have hdl : ¬ m'.downloadOk = false := by
    simp [photoOk] at hok'
    simp [hok'.2]
  unfold _collect_media_group_image
  rw [if_neg hsize, if_neg hdl, if_pos (by simpa using hfull)]
  rfl

/-- Seven acceptable photos for one album, the fifth one captioned. -/
def ms7 : List PhotoMsg :=
  [⟨none, some "g", 10, true, 1⟩, ⟨none, some "g", 10, true, 2⟩,
   ⟨none, some "g", 10, true, 3⟩, ⟨none, some "g", 10, true, 4⟩,
   ⟨some "cap", some "g", 10, true, 5⟩, ⟨none, some "g", 10, true, 6⟩,
   ⟨none, some "g", 10, true, 7⟩]

/-- C8 witness: seven album photos leave five collected images and two warnings. -/
theorem album_truncation_witness :
    storeLen (collectAll none ms7).1 = 5 ∧ (collectAll none ms7).2 = 2 :=
  ⟨((album_truncation ms7 (by decide)).1).trans (by decide),
   ((album_truncation ms7 (by decide)).2.1).trans (by decide)⟩

/-! ### Claim C9 — image count validation -/

/-- C9: `set_user_image_count` succeeds (never mutating anything when it
raises) exactly for `count ∈ {1, 2, 4}`; on success it sets this user's
`image_count` and changes nothing else — no other field of the row, no other
user, no state, no log. -/
theorem set_user_image_count_validates (db : DB) (uid count : Nat) (u : UserRow)
    (hu : db.users uid = some u) :
    ((set_user_image_count db uid count).toOption.isSome
      ↔ (count = 1 ∨ count = 2 ∨ count = 4))
    ∧ (∀ db', set_user_image_count db uid count = .ok db' →
        db'.users uid = some { u with image_count := count }
        ∧ (∀ j, j ≠ uid → db'.users j = db.users j)
        ∧ db'.states = db.states ∧ db'.log = db.log)
    ∧ (¬(count = 1 ∨ count = 2 ∨ count = 4) →
        set_user_image_count db uid count = .error "Image count must be 1, 2, or 4") := by
  refine ⟨?_, ?_, ?_⟩
  · by_cases h : count = 1 ∨ count = 2 ∨ count = 4 <;>
      simp [set_user_image_count, h, Except.toOption]
  · intro db' hdb'
    rw [set_user_image_count] at hdb'
    split at hdb'
    · cases hdb'
      refine ⟨by simp [hu], fun j hj => by simp [hj], rfl, rfl⟩
    · simp at hdb'
  · intro h
    simp [set_user_image_count, h]

/-- C9 witness: rejecting `count = 3` and accepting `count = 2`. -/
theorem set_user_image_count_validates_witness :
    set_user_image_count dbIdle 1 3 = .error "Image count must be 1, 2, or 4"
    ∧ (set_user_image_count dbIdle 1 2).toOption.map (fun d => d.users 1)
      = some (some { sampleUser with image_count := 2 }) := by
  constructor
  · exact (set_user_image_count_validates dbIdle 1 3 sampleUser rfl).2.2 (by decide)
  · have h := (set_user_image_count_validates dbIdle 1 2 sampleUser rfl).1
    rfl

/-! ### Claim C10 — unknown features deduct nothing -/

/-- C10: for a feature not in the cost table, `deduct_balance` deducts the
default cost `0`: every user row (and the state table) is unchanged, and the
user's current balance is returned. -/
theorem deduct_balance_unknown_feature (db : DB) (uid : Nat) (feature : String) (u : UserRow)
    (hf1 : feature ≠ "create_photo") (hf2 : feature ≠ "analyze_ctr")
    (hu : db.users uid = some u) :
    (∀ j, (deduct_balance db uid feature).1.users j = db.users j)
    ∧ (deduct_balance db uid feature).1.states = db.states
    ∧ (deduct_balance db uid feature).1.log = db.log
    ∧ (deduct_balance db uid feature).2 = u.balance := by
  have hc : TOKEN_COSTS feature = none := by
    simp [TOKEN_COSTS, hf1, hf2]
  obtain ⟨un, fn, b, ic, hsp⟩ := u
  refine ⟨fun j => ?_, rfl, rfl, ?_⟩
  · by_cases hj : j = uid
    · subst hj
      simp [deduct_balance, update_user_balance, hc, hu]
    · simp [deduct_balance, update_user_balance, hc, hj]
  · simp [deduct_balance, update_user_balance, hc, hu]

/-- C10 witness: an unknown feature string leaves the balance at 50. -/
theorem deduct_balance_unknown_feature_witness :
    (deduct_balance dbIdle 1 "summarize").1.users 1 = dbIdle.users 1
    ∧ (deduct_balance dbIdle 1 "summarize").2 = 50 :=
  ⟨(deduct_balance_unknown_feature dbIdle 1 "summarize" sampleUser
      (by decide) (by decide) rfl).1 1,
   (deduct_balance_unknown_feature dbIdle 1 "summarize" sampleUser
      (by decide) (by decide) rfl).2.2.2⟩

end NanoBanana
